import Mathlib

/-!
Shallow embedding of `download_dataset.py` from
`AutoCodeBenchPackage/Sources/AutoCodeBenchFeature/Resources/scripts/`.

The script's `main` is a single linear procedure:
  1. if `len(sys.argv) < 2`: print a usage message to stderr, exit 1;
  2. `os.makedirs(out_dir, exist_ok=True)` (outside the try block, so a
     failure here propagates as an uncaught exception);
  3. inside a `try`: import `hf_hub_download`, call it with constant
     repo/filename arguments, and if the returned path differs from the
     canonical `out_dir/autocodebench.jsonl` after `os.path.abspath`
     normalization, `shutil.copy2` it to the canonical path; print the
     canonical path to stdout;
  4. `except Exception as e`: print `str(e)` to stderr, exit 2.

The embedding makes the external effects explicit: an `Env` supplies the
outcome of each fallible external operation (`os.makedirs`, the import,
`hf_hub_download`, `shutil.copy2`) and the `os.path.abspath` normalization
(which depends on the process working directory), a small `FS` models the
directories and files touched, and the run returns the exit code, the
lines printed on each stream, whether an exception escaped `main`
uncaught, a trace of the external calls attempted, and the final
filesystem.
-/

/-- The usage line `main` prints to stderr when no argument is given. -/
def usageMsg : String := "Usage: download_dataset.py <output_dir>"

/-- The constant `repo_id` argument passed to `hf_hub_download`. -/
def repoId : String := "tencent/AutoCodeBenchmark"

/-- The constant `filename` argument passed to `hf_hub_download`, also the
fixed local filename joined onto `out_dir`. -/
def artifactName : String := "autocodebench.jsonl"

/-- The first character of a string, if any. -/
def strHead? (s : String) : Option Char := s.data.head?

/-- The last character of a string, if any. -/
def strLast? (s : String) : Option Char := s.data.getLast?

/-- Whether a POSIX path is absolute (begins with the separator). -/
def isAbsolute (p : String) : Bool := strHead? p = some '/'

/-- `os.path.join` for POSIX paths, as the script uses it: an absolute
second component replaces the first; otherwise the components are joined
with a single separator. -/
def osPathJoin (a b : String) : String :=
  if isAbsolute b then b
  else if a = "" then b
  else if strLast? a = some '/' then a ++ b
  else a ++ "/" ++ b

/-- Split a character list at every separator character. -/
def splitSlash : List Char → List (List Char)
  | [] => [[]]
  | c :: rest =>
    let r := splitSlash rest
    if c = '/' then [] :: r
    else
      match r with
      | [] => [[c]]
      | h :: t => (c :: h) :: t

/-- Nonempty components of a POSIX path. -/
def pathComponents (p : String) : List String :=
  ((splitSlash p.data).filter (fun l => l ≠ [])).map (fun l => String.mk l)

/-- Join path components with the separator. -/
def joinWithSlash : List String → String
  | [] => ""
  | [s] => s
  | s :: rest => s ++ "/" ++ joinWithSlash rest

/-- The chain of directories `os.makedirs` creates for `p`: every leading
portion of the path, ending with `p` itself. -/
def pathPrefixChain (p : String) : List String :=
  let comps := pathComponents p
  let lead := if isAbsolute p then "/" else ""
  (List.range comps.length).map
    (fun i => lead ++ joinWithSlash (comps.take (i + 1)))

/-- The filesystem state the script touches: the set of existing
directories, and an association of (abspath-normalized) file paths to
byte contents.  A later entry for the same path is shadowed by an
earlier one. -/
structure FS where
  dirs : List String
  files : List (String × String)
  deriving Repr, DecidableEq

/-- The empty filesystem. -/
def fsEmpty : FS := { dirs := [], files := [] }

/-- Write (or overwrite) the file at path `p` with contents `c`. -/
def fsWrite (fs : FS) (p c : String) : FS :=
  { fs with files := (p, c) :: fs.files }

/-- Read the file at path `p`, if present. -/
def fsRead (fs : FS) (p : String) : Option String :=
  match fs.files.find? (fun q => q.1 == p) with
  | some q => some q.2
  | none => none

/-- The paths of the files present in `fs`. -/
def filePaths (fs : FS) : List String := fs.files.map Prod.fst

/-- Outcomes of the external operations for one invocation.  `none` /
`.ok` means the operation succeeds; `some e` / `.error e` means it raises
an exception whose `str(...)` is `e`.  `client` is `hf_hub_download`: on
success it yields the local path it returns together with the bytes it
placed there.  `abspath` is `os.path.abspath`, abstract because it folds
in the process working directory. -/
structure Env where
  mkdirErr : Option String
  importErr : Option String
  client : Except String (String × String)
  copyErr : Option String
  abspath : String → String

/-- The externally observable calls the script attempts, in order.
`copy2` stands for `shutil.copy2`, the metadata-preserving copy. -/
inductive Event where
  | makedirs (dir : String) (existOk : Bool)
  | clientDownload (repoIdent fname repoType localDir : String)
      (useSymlinks : Bool)
  | copy2 (src dst : String)
  deriving Repr, DecidableEq

/-- Whether an event is the call to the external artifact-store client. -/
def Event.isClient : Event → Bool
  | .clientDownload _ _ _ _ _ => true
  | _ => false

/-- Exception message CPython raises from `os.makedirs("")`. -/
def emptyPathError : String :=
  "FileNotFoundError: [Errno 2] No such file or directory: empty path"

/-- Exception message `os.makedirs` raises for an existing directory when
`exist_ok` is false. -/
def fileExistsError : String := "FileExistsError: [Errno 17] File exists"

/-- `os.makedirs(dir, exist_ok=existOk)`: raises on the empty path, may
raise for environmental reasons (permissions, read-only filesystem),
raises `FileExistsError` for an existing directory only when `exist_ok`
is false, and otherwise creates the directory and all missing parents. -/
def makedirs (dir : String) (existOk : Bool) (env : Env) (fs : FS) :
    Except String FS :=
  if dir = "" then .error emptyPathError
  else
    match env.mkdirErr with
    | some e => .error e
    | none =>
      if existOk = false ∧ dir ∈ fs.dirs then .error fileExistsError
      else .ok { fs with dirs := pathPrefixChain dir ++ fs.dirs }

/-- What one process run produces.  `crashed = true` means an exception
escaped `main` uncaught; CPython then prints a multi-line traceback to
stderr and the process exits with status 1. -/
structure RunOutput where
  exitCode : Nat
  stdoutLines : List String
  stderrLines : List String
  crashed : Bool
  trace : List Event
  fs : FS
  deriving Repr, DecidableEq

/-- The lines CPython's default excepthook prints for an exception that
escapes `main`: a header, at least one source-location frame line, and
the exception itself — always more than one line. -/
def pythonTraceback (msg : String) : List String :=
  ["Traceback (most recent call last):",
   "  File download_dataset.py, line 15, in main",
   msg]

/-- The embedding of `main`: `args` is `sys.argv[1:]`, so the Python
guard `len(sys.argv) < 2` is `args = []`. -/
def run (args : List String) (env : Env) (fs0 : FS) : RunOutput :=
  match args with
  | [] =>
    { exitCode := 1, stdoutLines := [], stderrLines := [usageMsg],
      crashed := false, trace := [], fs := fs0 }
  | outDir :: _ =>
    let t0 : List Event := [Event.makedirs outDir true]
    match makedirs outDir true env fs0 with
    | .error e =>
      { exitCode := 1, stdoutLines := [],
        stderrLines := pythonTraceback e, crashed := true,
        trace := t0, fs := fs0 }
    | .ok fs1 =>
      let outPath := osPathJoin outDir artifactName
      match env.importErr with
      | some e =>
        { exitCode := 2, stdoutLines := [], stderrLines := [e],
          crashed := false, trace := t0, fs := fs1 }
      | none =>
        let t1 := t0 ++
          [Event.clientDownload repoId artifactName "dataset" outDir false]
        match env.client with
        | .error e =>
          { exitCode := 2, stdoutLines := [], stderrLines := [e],
            crashed := false, trace := t1, fs := fs1 }
        | .ok (p, content) =>
          let fs2 := fsWrite fs1 (env.abspath p) content
          if env.abspath p = env.abspath outPath then
            { exitCode := 0, stdoutLines := [outPath], stderrLines := [],
              crashed := false, trace := t1, fs := fs2 }
          else
            let t2 := t1 ++ [Event.copy2 p outPath]
            match env.copyErr with
            | some e =>
              { exitCode := 2, stdoutLines := [], stderrLines := [e],
                crashed := false, trace := t2, fs := fs2 }
            | none =>
              match fsRead fs2 (env.abspath p) with
              | none =>
                { exitCode := 2, stdoutLines := [],
                  stderrLines := [emptyPathError], crashed := false,
                  trace := t2, fs := fs2 }
              | some c =>
                { exitCode := 0, stdoutLines := [outPath],
                  stderrLines := [], crashed := false, trace := t2,
                  fs := fsWrite fs2 (env.abspath outPath) c }

/-! Concrete environments and filesystems used to instantiate the
theorems below on closed inputs. -/

/-- A client that already places the artifact at the canonical path. -/
def envOkSame : Env :=
  { mkdirErr := none, importErr := none,
    client := Except.ok ("data/autocodebench.jsonl", "rows"),
    copyErr := none, abspath := fun s => "/cwd/" ++ s }

/-- A client that places the artifact in a nested cache layout. -/
def envOkDiff : Env :=
  { mkdirErr := none, importErr := none,
    client := Except.ok ("data/cache/abc/autocodebench.jsonl", "rows"),
    copyErr := none, abspath := fun s => "/cwd/" ++ s }

/-- The client succeeds but the subsequent `shutil.copy2` raises. -/
def envCopyFail : Env :=
  { mkdirErr := none, importErr := none,
    client := Except.ok ("data/cache/abc/autocodebench.jsonl", "rows"),
    copyErr := some "OSError: [Errno 28] No space left on device",
    abspath := fun s => "/cwd/" ++ s }

/-- The client call itself raises. -/
def envClientFail : Env :=
  { mkdirErr := none, importErr := none,
    client := Except.error "ConnectionError: failed to reach host",
    copyErr := none, abspath := fun s => "/cwd/" ++ s }

/-- The `huggingface_hub` import raises. -/
def envImportFail : Env :=
  { mkdirErr := none,
    importErr := some "No module named huggingface_hub",
    client := Except.error "unreachable",
    copyErr := none, abspath := fun s => "/cwd/" ++ s }

/-- `os.makedirs` raises for an environmental reason. -/
def envMkdirFail : Env :=
  { mkdirErr := some "PermissionError: [Errno 13] Permission denied: data",
    importErr := none,
    client := Except.ok ("data/autocodebench.jsonl", "rows"),
    copyErr := none, abspath := fun s => "/cwd/" ++ s }

/-- A filesystem on which the output directory already exists. -/
def fsData : FS := { dirs := ["data"], files := [] }

/-! Branch-evaluation lemmas for `run`. -/

/-- Successful `os.makedirs(d, exist_ok=True)` creates the whole prefix
chain, whether or not the directory already exists. -/
theorem makedirs_ok (d : String) (env : Env) (fs : FS) (hd : d ≠ "")
    (hm : env.mkdirErr = none) :
    makedirs d true env fs =
      Except.ok { fs with dirs := pathPrefixChain d ++ fs.dirs } := by
  simp [makedirs, hd, hm]

/-- Reading back a freshly written file yields the written contents. -/
theorem fsRead_fsWrite_self (fs : FS) (p c : String) :
    fsRead (fsWrite fs p c) p = some c := by
  simp [fsRead, fsWrite]

/-- The run with no arguments at all. -/
theorem run_nil (env : Env) (fs : FS) :
    run [] env fs =
      { exitCode := 1, stdoutLines := [], stderrLines := [usageMsg],
        crashed := false, trace := [], fs := fs } := rfl

/-- The run when `os.makedirs` raises. -/
theorem run_mkdir_err (d : String) (rest : List String) (env : Env)
    (fs : FS) (e : String) (hd : d ≠ "") (hm : env.mkdirErr = some e) :
    run (d :: rest) env fs =
      { exitCode := 1, stdoutLines := [],
        stderrLines := pythonTraceback e, crashed := true,
        trace := [Event.makedirs d true], fs := fs } := by
  have h : makedirs d true env fs = Except.error e := by
    simp [makedirs, hd, hm]
  simp [run, h]

/-- The run when the `huggingface_hub` import raises. -/
theorem run_import_err (d : String) (rest : List String) (env : Env)
    (fs : FS) (e : String) (hd : d ≠ "") (hm : env.mkdirErr = none)
    (hi : env.importErr = some e) :
    run (d :: rest) env fs =
      { exitCode := 2, stdoutLines := [], stderrLines := [e],
        crashed := false, trace := [Event.makedirs d true],
        fs := { fs with dirs := pathPrefixChain d ++ fs.dirs } } := by
  simp [run, makedirs_ok d env fs hd hm, hi]

/-- The run when `hf_hub_download` raises. -/
theorem run_client_err (d : String) (rest : List String) (env : Env)
    (fs : FS) (e : String) (hd : d ≠ "") (hm : env.mkdirErr = none)
    (hi : env.importErr = none) (hc : env.client = Except.error e) :
    run (d :: rest) env fs =
      { exitCode := 2, stdoutLines := [], stderrLines := [e],
        crashed := false,
        trace := [Event.makedirs d true,
                  Event.clientDownload repoId artifactName "dataset" d
                    false],
        fs := { fs with dirs := pathPrefixChain d ++ fs.dirs } } := by
  simp [run, makedirs_ok d env fs hd hm, hi, hc]

/-- The run when the client already placed the artifact at the canonical
path (no copy performed). -/
theorem run_success_same (d : String) (rest : List String) (env : Env)
    (fs : FS) (p content : String) (hd : d ≠ "")
    (hm : env.mkdirErr = none) (hi : env.importErr = none)
    (hc : env.client = Except.ok (p, content))
    (hab : env.abspath p = env.abspath (osPathJoin d artifactName)) :
    run (d :: rest) env fs =
      { exitCode := 0, stdoutLines := [osPathJoin d artifactName],
        stderrLines := [], crashed := false,
        trace := [Event.makedirs d true,
                  Event.clientDownload repoId artifactName "dataset" d
                    false],
        fs := fsWrite { fs with dirs := pathPrefixChain d ++ fs.dirs }
                (env.abspath p) content } := by
  simp [run, makedirs_ok d env fs hd hm, hi, hc, hab]

/-- The run when the client placed the artifact elsewhere and the copy to
the canonical path succeeds. -/
theorem run_success_diff (d : String) (rest : List String) (env : Env)
    (fs : FS) (p content : String) (hd : d ≠ "")
    (hm : env.mkdirErr = none) (hi : env.importErr = none)
    (hc : env.client = Except.ok (p, content))
    (hab : env.abspath p ≠ env.abspath (osPathJoin d artifactName))
    (hcp : env.copyErr = none) :
    run (d :: rest) env fs =
      { exitCode := 0, stdoutLines := [osPathJoin d artifactName],
        stderrLines := [], crashed := false,
        trace := [Event.makedirs d true,
                  Event.clientDownload repoId artifactName "dataset" d
                    false,
                  Event.copy2 p (osPathJoin d artifactName)],
        fs := fsWrite
                (fsWrite { fs with dirs := pathPrefixChain d ++ fs.dirs }
                  (env.abspath p) content)
                (env.abspath (osPathJoin d artifactName)) content } := by
  simp [run, makedirs_ok d env fs hd hm, hi, hc, hab, hcp,
    fsRead_fsWrite_self]

/-- The run when the client placed the artifact elsewhere and
`shutil.copy2` raises. -/
theorem run_copy_err (d : String) (rest : List String) (env : Env)
    (fs : FS) (p content e : String) (hd : d ≠ "")
    (hm : env.mkdirErr = none) (hi : env.importErr = none)
    (hc : env.client = Except.ok (p, content))
    (hab : env.abspath p ≠ env.abspath (osPathJoin d artifactName))
    (hcp : env.copyErr = some e) :
    run (d :: rest) env fs =
      { exitCode := 2, stdoutLines := [], stderrLines := [e],
        crashed := false,
        trace := [Event.makedirs d true,
                  Event.clientDownload repoId artifactName "dataset" d
                    false,
                  Event.copy2 p (osPathJoin d artifactName)],
        fs := fsWrite { fs with dirs := pathPrefixChain d ++ fs.dirs }
                (env.abspath p) content } := by
  simp [run, makedirs_ok d env fs hd hm, hi, hc, hab, hcp]

/-- The run on an empty-string output directory: `os.makedirs("")` raises
before the try block is entered, so the exception escapes `main`. -/
theorem run_empty_dir (rest : List String) (env : Env) (fs : FS) :
    run ("" :: rest) env fs =
      { exitCode := 1, stdoutLines := [],
        stderrLines := pythonTraceback emptyPathError, crashed := true,
        trace := [Event.makedirs "" true], fs := fs } := by
  have h : makedirs "" true env fs = Except.error emptyPathError := by
    simp [makedirs]
  simp [run, h]

/-- C4: with zero command-line arguments the process exits with code 1,
writes the usage message to standard error, attempts no external call
(empty trace, so no network call and no directory creation), leaves the
filesystem untouched, and writes nothing to standard output. -/
theorem claim_C4 (env : Env) (fs : FS) :
    (run [] env fs).exitCode = 1
    ∧ (run [] env fs).stderrLines = [usageMsg]
    ∧ (run [] env fs).trace = []
    ∧ (run [] env fs).fs = fs
    ∧ (run [] env fs).stdoutLines = [] :=
  ⟨rfl, rfl, rfl, rfl, rfl⟩

/-- C9: an empty-string output directory passes the argument-presence
check — the run is not the usage path (its trace shows the directory
creation was attempted and its stderr is a traceback, not the usage
message) — and the exception `os.makedirs("")` raises propagates
uncaught: neither the usage exit nor the exit-code-2 handler applies,
the interpreter terminates with a traceback and status 1. -/
theorem claim_C9 (rest : List String) (env : Env) (fs : FS) :
    (run ("" :: rest) env fs).crashed = true
    ∧ (run ("" :: rest) env fs).exitCode = 1
    ∧ (run ("" :: rest) env fs).trace = [Event.makedirs "" true]
    ∧ (run ("" :: rest) env fs).stdoutLines = []
    ∧ (run ("" :: rest) env fs).stderrLines
        = pythonTraceback emptyPathError
    ∧ (run ("" :: rest) env fs).stderrLines ≠ [usageMsg] := by
  rw [run_empty_dir rest env fs]
  exact ⟨rfl, rfl, rfl, rfl, rfl,
    show pythonTraceback emptyPathError ≠ [usageMsg] by decide⟩

/-- C10: when the `huggingface_hub` import raises (library not
installed), the exception is caught by the same handler as transfer
failures: exit code 2, the error message on standard error, no crash,
nothing on standard output. -/
theorem claim_C10 (d : String) (rest : List String) (env : Env) (fs : FS)
    (e : String) (hd : d ≠ "") (hm : env.mkdirErr = none)
    (hi : env.importErr = some e) :
    (run (d :: rest) env fs).exitCode = 2
    ∧ (run (d :: rest) env fs).stderrLines = [e]
    ∧ (run (d :: rest) env fs).crashed = false
    ∧ (run (d :: rest) env fs).stdoutLines = [] := by
  rw [run_import_err d rest env fs e hd hm hi]
  exact ⟨rfl, rfl, rfl, rfl⟩

/-- Witness for C10 at a concrete import failure. -/
theorem claim_C10_witness :
    (run ["data"] envImportFail fsEmpty).exitCode = 2
    ∧ (run ["data"] envImportFail fsEmpty).stderrLines
        = ["No module named huggingface_hub"] :=
  ⟨(claim_C10 "data" [] envImportFail fsEmpty
      "No module named huggingface_hub" (by decide) rfl rfl).1,
   (claim_C10 "data" [] envImportFail fsEmpty
      "No module named huggingface_hub" (by decide) rfl rfl).2.1⟩

/-- C8: every run that reaches the transfer step calls the external
client exactly once, with the constant repository identifier, the
constant artifact filename, repository kind dataset, the user-supplied
output directory, and symlink use disabled — whether the call then
succeeds or raises. -/
theorem claim_C8 (d : String) (rest : List String) (env : Env) (fs : FS)
    (hd : d ≠ "") (hm : env.mkdirErr = none) (hi : env.importErr = none) :
    (run (d :: rest) env fs).trace.filter Event.isClient
      = [Event.clientDownload repoId artifactName "dataset" d false] := by
  rcases hc : env.client with e | ⟨p, content⟩
  · rw [run_client_err d rest env fs e hd hm hi hc]
    rfl
  · by_cases hab :
      env.abspath p = env.abspath (osPathJoin d artifactName)
    · rw [run_success_same d rest env fs p content hd hm hi hc hab]
      rfl
    · rcases hcp : env.copyErr with _ | e
      · rw [run_success_diff d rest env fs p content hd hm hi hc hab hcp]
        rfl
      · rw [run_copy_err d rest env fs p content e hd hm hi hc hab hcp]
        rfl

/-- Witness for C8 at a concrete successful run. -/
theorem claim_C8_witness :
    (run ["data"] envOkSame fsEmpty).trace.filter Event.isClient
      = [Event.clientDownload repoId artifactName "dataset" "data"
          false] :=
  claim_C8 "data" [] envOkSame fsEmpty (by decide) rfl rfl

/-- C3: if the client call raises, or the client succeeds but the
copy-to-canonical-path step raises, the process exits with code 2,
writes the error message as the single standard-error line, and writes
nothing to standard output. -/
theorem claim_C3 (d : String) (rest : List String) (env : Env) (fs : FS)
    (e : String) (hd : d ≠ "") (hm : env.mkdirErr = none)
    (hi : env.importErr = none)
    (hcase : env.client = Except.error e
      ∨ ∃ p content, env.client = Except.ok (p, content)
          ∧ env.abspath p ≠ env.abspath (osPathJoin d artifactName)
          ∧ env.copyErr = some e) :
    (run (d :: rest) env fs).exitCode = 2
    ∧ (run (d :: rest) env fs).stderrLines = [e]
    ∧ (run (d :: rest) env fs).stdoutLines = [] := by
  rcases hcase with hc | ⟨p, content, hc, hab, hcp⟩
  · rw [run_client_err d rest env fs e hd hm hi hc]
    exact ⟨rfl, rfl, rfl⟩
  · rw [run_copy_err d rest env fs p content e hd hm hi hc hab hcp]
    exact ⟨rfl, rfl, rfl⟩

/-- Witness for C3 at a concrete failing client. -/
theorem claim_C3_witness :
    (run ["data"] envClientFail fsEmpty).exitCode = 2
    ∧ (run ["data"] envClientFail fsEmpty).stderrLines
        = ["ConnectionError: failed to reach host"]
    ∧ (run ["data"] envClientFail fsEmpty).stdoutLines = [] :=
  claim_C3 "data" [] envClientFail fsEmpty
    "ConnectionError: failed to reach host" (by decide) rfl rfl
    (Or.inl rfl)

/-- C1 counterexample: a run in which the external client succeeds but
`shutil.copy2` to the canonical path then raises exits with code 2 and
writes nothing to standard output, so client success alone does not give
the claimed single stdout line and exit code 0. -/
theorem claim_C1_counterexample :
    (∃ p c, envCopyFail.client = Except.ok (p, c))
    ∧ (run ["data"] envCopyFail fsEmpty).exitCode ≠ 0
    ∧ (run ["data"] envCopyFail fsEmpty).stdoutLines = [] :=
  ⟨⟨"data/cache/abc/autocodebench.jsonl", "rows", rfl⟩, by decide,
   by decide⟩

/-- C1 (amended): for every invocation where the external client
succeeds and the copy to the canonical path, when one is needed, also
succeeds, the program writes exactly one stdout line equal to the join
of the user-supplied output directory (in the path form it was passed)
with the literal filename, exits with code 0, and writes nothing to
standard error. -/
theorem claim_C1_amended (d : String) (rest : List String) (env : Env)
    (fs : FS) (p content : String) (hd : d ≠ "")
    (hm : env.mkdirErr = none) (hi : env.importErr = none)
    (hc : env.client = Except.ok (p, content))
    (hcp : env.abspath p ≠ env.abspath (osPathJoin d artifactName) →
      env.copyErr = none) :
    (run (d :: rest) env fs).stdoutLines = [osPathJoin d artifactName]
    ∧ (run (d :: rest) env fs).exitCode = 0
    ∧ (run (d :: rest) env fs).stderrLines = [] := by
  by_cases hab : env.abspath p = env.abspath (osPathJoin d artifactName)
  · rw [run_success_same d rest env fs p content hd hm hi hc hab]
    exact ⟨rfl, rfl, rfl⟩
  · rw [run_success_diff d rest env fs p content hd hm hi hc hab
      (hcp hab)]
    exact ⟨rfl, rfl, rfl⟩

/-- Witness for the amended C1 at a concrete nested-cache client. -/
theorem claim_C1_witness :
    (run ["data"] envOkDiff fsEmpty).stdoutLines
        = [osPathJoin "data" artifactName]
    ∧ (run ["data"] envOkDiff fsEmpty).exitCode = 0 :=
  ⟨(claim_C1_amended "data" [] envOkDiff fsEmpty
      "data/cache/abc/autocodebench.jsonl" "rows" (by decide) rfl rfl
      rfl (fun _ => rfl)).1,
   (claim_C1_amended "data" [] envOkDiff fsEmpty
      "data/cache/abc/autocodebench.jsonl" "rows" (by decide) rfl rfl
      rfl (fun _ => rfl)).2.1⟩

/-- C2: when the path the client returns differs from the canonical path
after abspath normalization of both, and the copy succeeds, the run
performs the `shutil.copy2` (metadata-preserving) call from the returned
path to the canonical path, and afterwards the file at the canonical
path holds exactly the bytes the client produced, with exit code 0. -/
theorem claim_C2 (d : String) (rest : List String) (env : Env) (fs : FS)
    (p content : String) (hd : d ≠ "") (hm : env.mkdirErr = none)
    (hi : env.importErr = none)
    (hc : env.client = Except.ok (p, content))
    (hab : env.abspath p ≠ env.abspath (osPathJoin d artifactName))
    (hcp : env.copyErr = none) :
    (run (d :: rest) env fs).trace =
      [Event.makedirs d true,
       Event.clientDownload repoId artifactName "dataset" d false,
       Event.copy2 p (osPathJoin d artifactName)]
    ∧ fsRead (run (d :: rest) env fs).fs
        (env.abspath (osPathJoin d artifactName)) = some content
    ∧ (run (d :: rest) env fs).exitCode = 0 := by
  rw [run_success_diff d rest env fs p content hd hm hi hc hab hcp]
  exact ⟨rfl, fsRead_fsWrite_self _ _ _, rfl⟩

/-- Witness for C2 at a concrete nested-cache client. -/
theorem claim_C2_witness :
    (run ["data"] envOkDiff fsEmpty).trace =
      [Event.makedirs "data" true,
       Event.clientDownload repoId artifactName "dataset" "data" false,
       Event.copy2 "data/cache/abc/autocodebench.jsonl"
         (osPathJoin "data" artifactName)]
    ∧ fsRead (run ["data"] envOkDiff fsEmpty).fs
        (envOkDiff.abspath (osPathJoin "data" artifactName))
        = some "rows" :=
  ⟨(claim_C2 "data" [] envOkDiff fsEmpty
      "data/cache/abc/autocodebench.jsonl" "rows" (by decide) rfl rfl
      rfl (by decide) rfl).1,
   (claim_C2 "data" [] envOkDiff fsEmpty
      "data/cache/abc/autocodebench.jsonl" "rows" (by decide) rfl rfl
      rfl (by decide) rfl).2.1⟩

/-- C5: for every supplied output directory (any non-empty string, with
no environmental makedirs failure) the directory-creation call is the
first external call of the run — so it precedes any transfer attempt —
it creates the full chain of missing parent directories, all of which
are present in the final filesystem, and, because `exist_ok=True` is
passed, the call succeeds on any filesystem, in particular one where the
directory already exists. -/
theorem claim_C5 (d : String) (rest : List String) (env : Env) (fs : FS)
    (hd : d ≠ "") (hm : env.mkdirErr = none) :
    (run (d :: rest) env fs).trace.head? = some (Event.makedirs d true)
    ∧ (∀ q ∈ pathPrefixChain d, q ∈ (run (d :: rest) env fs).fs.dirs)
    ∧ makedirs d true env fs =
        Except.ok { fs with dirs := pathPrefixChain d ++ fs.dirs } := by
  have hsplit :
      (run (d :: rest) env fs).trace.head?
          = some (Event.makedirs d true)
        ∧ (run (d :: rest) env fs).fs.dirs
            = pathPrefixChain d ++ fs.dirs := by
    rcases hi : env.importErr with _ | e
    · rcases hc : env.client with e | ⟨p, content⟩
      · rw [run_client_err d rest env fs e hd hm hi hc]
        exact ⟨rfl, rfl⟩
      · by_cases hab :
          env.abspath p = env.abspath (osPathJoin d artifactName)
        · rw [run_success_same d rest env fs p content hd hm hi hc hab]
          exact ⟨rfl, rfl⟩
        · rcases hcp : env.copyErr with _ | e
          · rw [run_success_diff d rest env fs p content hd hm hi hc hab
              hcp]
            exact ⟨rfl, rfl⟩
          · rw [run_copy_err d rest env fs p content e hd hm hi hc hab
              hcp]
            exact ⟨rfl, rfl⟩
    · rw [run_import_err d rest env fs e hd hm hi]
      exact ⟨rfl, rfl⟩
  refine ⟨hsplit.1, ?_, makedirs_ok d env fs hd hm⟩
  intro q hq
  rw [hsplit.2]
  exact List.mem_append_left _ hq

/-- Witness for C5 on a filesystem where the directory already exists:
the creation step still succeeds and still leads the trace. -/
theorem claim_C5_witness :
    (run ["data"] envOkSame fsData).trace.head?
        = some (Event.makedirs "data" true)
    ∧ "data" ∈ (run ["data"] envOkSame fsData).fs.dirs
    ∧ makedirs "data" true envOkSame fsData =
        Except.ok
          { fsData with dirs := pathPrefixChain "data" ++ fsData.dirs } :=
  ⟨(claim_C5 "data" [] envOkSame fsData (by decide) rfl).1,
   (claim_C5 "data" [] envOkSame fsData (by decide) rfl).2.1 "data"
     (by decide),
   (claim_C5 "data" [] envOkSame fsData (by decide) rfl).2.2⟩

/-- C6 counterexample: a run where `os.makedirs` raises (permission
denied) is a failing run — it exits non-zero — but standard error does
not carry exactly one diagnostic line: the exception escapes the try
block, so the interpreter prints a multi-line traceback. -/
theorem claim_C6_counterexample :
    (run ["data"] envMkdirFail fsEmpty).exitCode ≠ 0
    ∧ (run ["data"] envMkdirFail fsEmpty).stderrLines.length ≠ 1 :=
  ⟨by decide, by decide⟩

/-- C6 (amended): on every failure the program itself reports (usage
error, import error, client error, copy error) exactly one diagnostic
line goes to standard error, nothing to standard output, and the exit
code is non-zero; on every successful run exactly one line goes to
standard output and nothing to standard error; a directory-creation
failure instead escapes `main` uncaught, exiting non-zero with a
multi-line interpreter traceback on standard error. -/
theorem claim_C6_amended (args : List String) (env : Env) (fs : FS) :
    ((run args env fs).crashed = false → (run args env fs).exitCode ≠ 0 →
      (run args env fs).stderrLines.length = 1
        ∧ (run args env fs).stdoutLines = [])
    ∧ ((run args env fs).crashed = false → (run args env fs).exitCode = 0 →
      (run args env fs).stdoutLines.length = 1
        ∧ (run args env fs).stderrLines = [])
    ∧ ((run args env fs).crashed = true →
      (run args env fs).exitCode ≠ 0
        ∧ 2 ≤ (run args env fs).stderrLines.length) := by
  rcases args with _ | ⟨d, rest⟩
  · rw [run_nil env fs]
    simp
  · by_cases hd : d = ""
    · subst hd
      rw [run_empty_dir rest env fs]
      simp [pythonTraceback]
    · rcases hm : env.mkdirErr with _ | e
      · rcases hi : env.importErr with _ | e
        · rcases hc : env.client with e | ⟨p, content⟩
          · rw [run_client_err d rest env fs e hd hm hi hc]
            simp
          · by_cases hab :
              env.abspath p = env.abspath (osPathJoin d artifactName)
            · rw [run_success_same d rest env fs p content hd hm hi hc
                hab]
              simp
            · rcases hcp : env.copyErr with _ | e
              · rw [run_success_diff d rest env fs p content hd hm hi hc
                  hab hcp]
                simp
              · rw [run_copy_err d rest env fs p content e hd hm hi hc
                  hab hcp]
                simp
        · rw [run_import_err d rest env fs e hd hm hi]
          simp
      · rw [run_mkdir_err d rest env fs e hd hm]
        simp [pythonTraceback]

/-- Witness for the amended C6 at a concrete caught failure. -/
theorem claim_C6_witness :
    (run ["data"] envClientFail fsEmpty).stderrLines.length = 1
    ∧ (run ["data"] envClientFail fsEmpty).stdoutLines = [] :=
  (claim_C6_amended ["data"] envClientFail fsEmpty).1 (by decide)
    (by decide)

/-- C7: running the tool twice against the same output directory with a
successful client both times leaves the canonical file present with the
client-produced bytes after the first run and after the second, and the
second run's final filesystem holds no paths beyond those initially
present, the client's placement path, and the canonical path — no stale
temporary files accumulate. -/
theorem claim_C7 (d : String) (rest : List String) (env : Env) (fs0 : FS)
    (p content : String) (hd : d ≠ "") (hm : env.mkdirErr = none)
    (hi : env.importErr = none)
    (hc : env.client = Except.ok (p, content))
    (hcp : env.abspath p ≠ env.abspath (osPathJoin d artifactName) →
      env.copyErr = none) :
    fsRead (run (d :: rest) env fs0).fs
        (env.abspath (osPathJoin d artifactName)) = some content
    ∧ fsRead (run (d :: rest) env (run (d :: rest) env fs0).fs).fs
        (env.abspath (osPathJoin d artifactName)) = some content
    ∧ ∀ q ∈ filePaths
          (run (d :: rest) env (run (d :: rest) env fs0).fs).fs,
        q ∈ filePaths fs0 ∨ q = env.abspath p
          ∨ q = env.abspath (osPathJoin d artifactName) := by
  by_cases hab : env.abspath p = env.abspath (osPathJoin d artifactName)
  · rw [run_success_same d rest env fs0 p content hd hm hi hc hab,
      run_success_same d rest env _ p content hd hm hi hc hab]
    refine ⟨?_, ?_, ?_⟩
    · rw [← hab]
      exact fsRead_fsWrite_self _ _ _
    · rw [← hab]
      exact fsRead_fsWrite_self _ _ _
    · intro q hq
      simp only [filePaths, fsWrite, List.map_cons, List.mem_cons] at hq
      rcases hq with h | h | h
      · exact Or.inr (Or.inl h)
      · exact Or.inr (Or.inl h)
      · exact Or.inl h
  · have hcp' := hcp hab
    rw [run_success_diff d rest env fs0 p content hd hm hi hc hab hcp',
      run_success_diff d rest env _ p content hd hm hi hc hab hcp']
    refine ⟨fsRead_fsWrite_self _ _ _, fsRead_fsWrite_self _ _ _, ?_⟩
    intro q hq
    simp only [filePaths, fsWrite, List.map_cons, List.mem_cons] at hq
    rcases hq with h | h | h | h | h
    · exact Or.inr (Or.inr h)
    · exact Or.inr (Or.inl h)
    · exact Or.inr (Or.inr h)
    · exact Or.inr (Or.inl h)
    · exact Or.inl h

/-- Witness for C7 at a concrete client, run twice from the empty
filesystem. -/
theorem claim_C7_witness :
    fsRead (run ["data"] envOkSame fsEmpty).fs
        (envOkSame.abspath (osPathJoin "data" artifactName))
        = some "rows"
    ∧ fsRead (run ["data"] envOkSame
          (run ["data"] envOkSame fsEmpty).fs).fs
        (envOkSame.abspath (osPathJoin "data" artifactName))
        = some "rows" :=
  ⟨(claim_C7 "data" [] envOkSame fsEmpty "data/autocodebench.jsonl"
      "rows" (by decide) rfl rfl rfl (fun _ => rfl)).1,
   (claim_C7 "data" [] envOkSame fsEmpty "data/autocodebench.jsonl"
      "rows" (by decide) rfl rfl rfl (fun _ => rfl)).2.1⟩
